import Mathlib

/-!
Verification model of the pitaya clustered-session fabric.

The definitions below are a shallow embedding of
`src/remote/sys.go` (the Sys handlers and the four session-pool
callbacks registered in `Sys.Init`) and of
`src/cluster/nats_rpc_server.go` (configuration validation, the
publish-subscription registry, and the drop accounting of
`handleMessages`).

Collaborators whose source is not part of this repository snapshot
(the session entity, the session pool, the remote service and the
route decoder) are modelled from the specification, as marked on the
individual definitions.
-/

namespace PitayaModel

/-- Error values of the constants package, plus `external` for errors
produced by collaborators (broker, cache, remote peers) in a given run. -/
inductive Err where
  | sessionNotFound
  | sessionAlreadyBound
  | illegalBindBackendID
  | noNatsConnectionString
  | natsMessagesBufferSizeZero
  | natsPushBufferSizeZero
  | invalidRoute
  | external (tag : Nat)
  deriving DecidableEq

/-- `cluster.Server`: id, type and frontend flag (the fields read by sys.go). -/
structure Server where
  id : String
  type : String
  frontend : Bool
  deriving DecidableEq

/-- Modelled from the spec (§3 Session): the session fields touched by the
sys.go callbacks. `dataEncoded` is the opaque encoded user data returned by
`GetDataEncoded` and written back by `SetDataEncoded`; `frontendId` and
`frontendSessionId` are the fields written by `SetFrontendData`. -/
structure SessionSt where
  id : Int
  uid : String
  frontendId : String
  frontendSessionId : Int
  dataEncoded : String
  deriving DecidableEq

/-- `protos.BindMsg`. -/
structure BindMsg where
  uid : String
  fid : String
  sid : Int
  metadata : List (String × String)
  deriving DecidableEq

/-- `protos.BindBackendMsg`. -/
structure BindBackendMsg where
  uid : String
  btype : String
  bid : String
  metadata : List (String × String)
  deriving DecidableEq

/-- `protos.KickMsg`. -/
structure KickMsg where
  userId : String
  metadata : List (String × String)
  deriving DecidableEq

/-- Payload of an outbound remote call. -/
inductive Payload where
  | bind (m : BindMsg)
  | bindBackend (m : BindBackendMsg)
  | kick (m : KickMsg)
  deriving DecidableEq

/-- One outbound side effect of a callback, in invocation order.
Modelled from the spec (§4.4 Remote Service): `notifyTo` is a Notify with an
explicit target server id; `notifyResolved` is a Notify with an empty server
id, whose single recipient is resolved via discovery from the route;
`forkToType` is a Fork delivered to every instance of the route's type;
`broadcastBind` is `BroadcastSessionBind`; `flush` is a `Flush2Cluster`
write of the session's binding record. -/
inductive Sent where
  | notifyTo (serverId : String) (route : String) (p : Payload)
  | notifyResolved (route : String) (p : Payload)
  | forkToType (route : String) (p : Payload)
  | broadcastBind (uid : String)
  | flush (uid : String)
  deriving DecidableEq

/-- Modelled from the spec: `session.CloseReason`, with the only distinction
the callbacks test, namely whether the close was initiated by a rebind. -/
inductive CloseReason where
  | normal
  | rebind
  deriving DecidableEq

/-- Route constants, modelled from the spec (§6 Route names). -/
def sessionBindRoute : String := "session.bind"

def kickRoute : String := "kick"

def sessionBindBackendRoute : String := "session.bind.backend"

def kickBackendRoute : String := "kick.backend"

def sessionBoundForkRoute : String := "session.bound.fork"

def sessionBoundRoute : String := "session.bound"

def sessionClosedRoute : String := "session.closed"

def sessionBoundBackendForkRoute : String := "session.bound.backend.fork"

def sessionBoundBackendRoute : String := "session.bound.backend"

def sessionKickedBackendRoute : String := "session.kicked.backend"

/-- Modelled from the spec: `route.Decode` selects the destination type from
the route string `<type>.<suffix>`. The spec gives no failure case for the
well-formed constant routes used by sys.go, so decoding is modelled as total;
the `Except` shape mirrors the error branches present at every call site. -/
def decodeRoute (r : String) : Except Err String := .ok r

/-- Modelled from the spec: `SessionPool.GetSessionByUID`, lookup in the
by-uid index of the local pool. -/
def getByUID (pool : List SessionSt) (uid : String) : Option SessionSt :=
  pool.find? (fun x => x.uid == uid)

/-- Modelled from the spec: `SessionPool.RemoveSessionLocal`, removal of the
given session from the local pool indices. -/
def removeSessionLocal (pool : List SessionSt) (s : SessionSt) : List SessionSt :=
  pool.filter (fun x => !(x.id == s.id))

/-- `true` when the notify outcome environment reports success for every
server type in the list. -/
def allNone (f : String → Option Err) (ts : List String) : Bool :=
  ts.all (fun t => (f t).isNone)

/-- Modelled from the spec (§4.4): the per-type Notify loop inside
`NotifyAll`. For each server type one Notify is invoked on the per-type
route; the loop stops at the first failing Notify and its error is the
result. Every invoked Notify is recorded in the trace. -/
def notifyEachType (ts : List String) (f : String → Option Err) (r : String) (p : Payload) :
    Option Err × List Sent :=
  match ts with
  | [] => (none, [])
  | t :: rest =>
    let m := Sent.notifyResolved (t ++ "." ++ r) p
    match f t with
    | some e => (some e, [m])
    | none =>
      let out := notifyEachType rest f r p
      (out.1, m :: out.2)

/-- Modelled from the spec (§4.4): `NotifyAll` sends one Notify per server
type known to discovery except the caller's own type. -/
def notifyAll (types : List String) (self : Server) (f : String → Option Err) (r : String)
    (p : Payload) : Option Err × List Sent :=
  notifyEachType (types.filter (fun t => t ≠ self.type)) f r p

/-- Outcome environment for one `OnSessionBind` invocation: the results the
collaborators return for each effectful step, and the server types known to
discovery. `obtain` carries the encoded data loaded by `ObtainFromCluster`
on success. -/
structure BindEnv where
  obtain : Except Err String
  flush : Option Err
  broadcast : Option Err
  fork : Option Err
  notify : String → Option Err
  types : List String

/-- Result of an `OnSessionBind` invocation: the error returned to the
caller, the session state after the callback, and the outbound calls made. -/
structure BindOut where
  result : Option Err
  sess : SessionSt
  trace : List Sent
  deriving DecidableEq

/-- The body of the one-iteration for-loop of the `OnSessionBind` callback
(src/remote/sys.go lines 65-106): obtain from cluster, set frontend data,
flush, `BroadcastSessionBind`, decode the fork route, fork, decode the bound
route, `NotifyAll`. As in the source, the error assigned from
`BroadcastSessionBind` is immediately overwritten by the following
`route.Decode` assignment before it is ever tested, so `env.broadcast`
cannot influence the outcome. -/
def sysBindLoop (server : Server) (env : BindEnv) (s : SessionSt)
    (callback : List (String × String)) : Option Err × SessionSt × List Sent :=
  match env.obtain with
  | .error e => (some e, s, [])
  | .ok newdata =>
    let s1 : SessionSt :=
      { s with dataEncoded := newdata, frontendId := server.id, frontendSessionId := s.id }
    match env.flush with
    | some e => (some e, s1, [Sent.flush s.uid])
    | none =>
      let msg := Payload.bind { uid := s.uid, fid := server.id, sid := s.id, metadata := callback }
      let t0 := [Sent.flush s.uid, Sent.broadcastBind s.uid]
      match decodeRoute (server.type ++ "." ++ sessionBoundForkRoute) with
      | .error e => (some e, s1, t0)
      | .ok r1 =>
        match env.fork with
        | some e => (some e, s1, t0 ++ [Sent.forkToType r1 msg])
        | none =>
          let t1 := t0 ++ [Sent.forkToType r1 msg]
          match decodeRoute sessionBoundRoute with
          | .error e => (some e, s1, t1)
          | .ok r2 =>
            let out := notifyAll env.types server env.notify r2 msg
            (out.1, s1, t1 ++ out.2)

/-- The `OnSessionBind` callback registered in `Sys.Init`
(src/remote/sys.go lines 57-116): a no-op on non-frontend servers;
otherwise runs the bind sequence and, if it ended with an error, restores
the snapshot of the encoded data taken at entry and returns the error. -/
def sysOnSessionBind (server : Server) (env : BindEnv) (s : SessionSt)
    (callback : List (String × String)) : BindOut :=
  if server.frontend = false then { result := none, sess := s, trace := [] }
  else
    let olddata := s.dataEncoded
    let out := sysBindLoop server env s callback
    match out.1 with
    | some e => { result := some e, sess := { out.2.1 with dataEncoded := olddata }, trace := out.2.2 }
    | none => { result := none, sess := out.2.1, trace := out.2.2 }

/-- Outcome environment for one `OnSessionClose` invocation. -/
structure CloseEnv where
  notify : String → Option Err
  types : List String

/-- The `OnSessionClose` callback registered in `Sys.Init`
(src/remote/sys.go lines 118-145): a no-op on non-frontend servers and on
rebind-initiated closes; otherwise decodes the session-closed route and
`NotifyAll`s a KickMsg carrying the session's uid and the callback metadata.
The frontend's binding record (the cluster cache entry, passed through as
`cache`) is never touched. -/
def sysOnSessionClose (server : Server) (env : CloseEnv) (s : SessionSt)
    (callback : List (String × String)) (reason : CloseReason)
    (cache : List (String × String)) : List Sent × List (String × String) :=
  if server.frontend = false then ([], cache)
  else if reason = CloseReason.rebind then ([], cache)
  else
    match decodeRoute sessionClosedRoute with
    | .error _ => ([], cache)
    | .ok r =>
      let msg := Payload.kick { userId := s.uid, metadata := callback }
      let out := notifyAll env.types server env.notify r msg
      (out.2, cache)

/-- Outcome environment for one `OnBindBackend` invocation. -/
structure BindBackendEnv where
  store : Option Err
  flush : Option Err
  fork : Option Err
  notifyType : String → Option Err
  notifyRemote : Option Err
  types : List String

/-- Result of an `OnBindBackend` or `OnKickBackend` invocation. -/
structure PoolOut where
  result : Option Err
  pool : List SessionSt
  trace : List Sent
  deriving DecidableEq

/-- The per-type notify loop of the local branch of `OnBindBackend`
(src/remote/sys.go lines 183-192): for each server type from discovery,
decode `<type>.session.bound.backend` and Notify one instance; stop at the
first error. -/
def notifyTypesWithDecode (ts : List String) (f : String → Option Err) (suffix : String)
    (p : Payload) : Option Err × List Sent :=
  match ts with
  | [] => (none, [])
  | t :: rest =>
    match decodeRoute (t ++ "." ++ suffix) with
    | .error e => (some e, [])
    | .ok r =>
      let m := Sent.notifyResolved r p
      match f t with
      | some e => (some e, [m])
      | none =>
        let out := notifyTypesWithDecode rest f suffix p
        (out.1, m :: out.2)

/-- The `OnBindBackend` callback registered in `Sys.Init`
(src/remote/sys.go lines 146-210). When the target server id is the local
id: fail with `ErrSessionAlreadyBound` if the pool already holds a session
for the uid, else store locally, flush to the cluster, fork on the own type
and notify one instance per discovered type. Otherwise: decode
`session.bind.backend` and forward a single Notify to the target, returning
its result. -/
def sysOnBindBackend (server : Server) (env : BindBackendEnv) (pool : List SessionSt)
    (s : SessionSt) (serverType serverId : String) (callback : List (String × String)) :
    PoolOut :=
  let msg := Payload.bindBackend
    { uid := s.uid, btype := serverType, bid := server.id, metadata := callback }
  if server.id = serverId then
    match getByUID pool s.uid with
    | some _ => { result := some Err.sessionAlreadyBound, pool := pool, trace := [] }
    | none =>
      match env.store with
      | some e => { result := some e, pool := pool, trace := [] }
      | none =>
        let pool1 := pool ++ [s]
        match env.flush with
        | some e => { result := some e, pool := pool1, trace := [Sent.flush s.uid] }
        | none =>
          match decodeRoute (server.type ++ "." ++ sessionBoundBackendForkRoute) with
          | .error e => { result := some e, pool := pool1, trace := [Sent.flush s.uid] }
          | .ok r1 =>
            match env.fork with
            | some e =>
              { result := some e, pool := pool1,
                trace := [Sent.flush s.uid, Sent.forkToType r1 msg] }
            | none =>
              let out := notifyTypesWithDecode env.types env.notifyType sessionBoundBackendRoute msg
              { result := out.1, pool := pool1,
                trace := Sent.flush s.uid :: Sent.forkToType r1 msg :: out.2 }
  else
    match decodeRoute sessionBindBackendRoute with
    | .error e => { result := some e, pool := pool, trace := [] }
    | .ok r => { result := env.notifyRemote, pool := pool, trace := [Sent.notifyTo serverId r msg] }

/-- Outcome environment for one `OnKickBackend` invocation. -/
structure KickBackendEnv where
  flush : Option Err
  notify : Option Err

/-- The `OnKickBackend` callback registered in `Sys.Init`
(src/remote/sys.go lines 211-257). When the target server id is the local
id: remove the session from the local pool; return nil immediately on a
rebind-initiated kick; otherwise flush to the cluster, decode the
session-kicked-backend route and invoke a single Notify with an empty
target server id. Otherwise: forward a single Notify to the target on the
kick-backend route. -/
def sysOnKickBackend (server : Server) (env : KickBackendEnv) (pool : List SessionSt)
    (s : SessionSt) (serverType serverId : String) (callback : List (String × String))
    (reason : CloseReason) : PoolOut :=
  let msg := Payload.bindBackend
    { uid := s.uid, btype := serverType, bid := server.id, metadata := callback }
  if server.id = serverId then
    let pool1 := removeSessionLocal pool s
    if reason = CloseReason.rebind then { result := none, pool := pool1, trace := [] }
    else
      match env.flush with
      | some e => { result := some e, pool := pool1, trace := [Sent.flush s.uid] }
      | none =>
        match decodeRoute sessionKickedBackendRoute with
        | .error e => { result := some e, pool := pool1, trace := [Sent.flush s.uid] }
        | .ok r =>
          { result := env.notify, pool := pool1,
            trace := [Sent.flush s.uid, Sent.notifyResolved r msg] }
  else
    match decodeRoute kickBackendRoute with
    | .error e => { result := some e, pool := pool, trace := [] }
    | .ok r => { result := env.notify, pool := pool, trace := [Sent.notifyTo serverId r msg] }

/-- Result of a Go handler call: normal value, normal error, or a runtime
panic from calling a method on a nil interface value. -/
inductive GoOut (α : Type) where
  | ok (a : α)
  | err (e : Err)
  | nilPanic
  deriving DecidableEq

/-- Outcome environment for `Sys.BindBackendSession`. -/
structure BindBackendSessionEnv where
  bindBackend : Option Err

/-- `Sys.BindBackendSession` (src/remote/sys.go lines 322-339). The session
is looked up by uid; if absent, it is taken from the request context. The
source then tests `sess == nil && sess.UID() != msg.Uid`: when the context
also carries no session the left conjunct holds and the right conjunct
calls `UID()` on a nil session, which panics, so the
`ErrSessionNotFound` return below the test is unreachable. With a session
in hand, the btype/bid guard returns `ErrIllegalBindBackendID` on mismatch,
and otherwise the session's `BindBackend` result decides the answer. -/
def sysBindBackendSession (server : Server) (env : BindBackendSessionEnv)
    (pool : List SessionSt) (ctxSession : Option SessionSt) (msg : BindBackendMsg) :
    GoOut String :=
  let withSession : SessionSt → GoOut String := fun _ =>
    if msg.btype ≠ server.type ∨ msg.bid ≠ server.id then GoOut.err Err.illegalBindBackendID
    else
      match env.bindBackend with
      | some e => GoOut.err e
      | none => GoOut.ok "ack"
  match getByUID pool msg.uid with
  | some sess => withSession sess
  | none =>
    match ctxSession with
    | some sess => withSession sess
    | none => GoOut.nilPanic

/-- Outcome environment for `Sys.Kick`. -/
structure KickEnv where
  kick : Option Err

/-- `protos.KickAnswer`. -/
structure KickAnswer where
  kicked : Bool
  deriving DecidableEq

/-- `Sys.Kick` (src/remote/sys.go lines 299-313): always returns a
KickAnswer; `kicked` is set to true only after the session found by uid is
kicked successfully. -/
def sysKick (env : KickEnv) (pool : List SessionSt) (msg : KickMsg) :
    KickAnswer × Option Err :=
  let res : KickAnswer := { kicked := false }
  match getByUID pool msg.userId with
  | none => (res, some Err.sessionNotFound)
  | some _ =>
    match env.kick with
    | some e => (res, some e)
    | none => ({ kicked := true }, none)

/-- `config.NatsRPCServerConfig`: the fields read by
`NatsRPCServer.configure` (src/cluster/nats_rpc_server.go lines 104-130). -/
structure NatsRPCServerConfig where
  services : Nat
  connect : String
  connectionTimeout : Nat
  maxReconnectionRetries : Nat
  bufferMessages : Nat
  bufferPush : Nat
  requestTimeout : Nat
  deriving DecidableEq

/-- The configuration-derived state of a `NatsRPCServer`: the fields and
channel capacities that `configure` establishes on success. -/
structure RPCServerConf where
  service : Nat
  connString : String
  connectionTimeout : Nat
  maxReconnectionRetries : Nat
  messagesBufferSize : Nat
  pushBufferSize : Nat
  subChanCap : Nat
  bindingsChanCap : Nat
  userPushChCap : Nat
  userKickChCap : Nat
  reqTimeout : Nat
  deriving DecidableEq

/-- `NatsRPCServer.configure` (src/cluster/nats_rpc_server.go lines
104-130): validates the connect string and the two buffer sizes in that
order, then sizes the channels. -/
def configure (c : NatsRPCServerConfig) : Except Err RPCServerConf :=
  if c.connect = "" then .error Err.noNatsConnectionString
  else if c.bufferMessages = 0 then .error Err.natsMessagesBufferSizeZero
  else if c.bufferPush = 0 then .error Err.natsPushBufferSizeZero
  else
    .ok
      { service := c.services
        connString := c.connect
        connectionTimeout := c.connectionTimeout
        maxReconnectionRetries := c.maxReconnectionRetries
        messagesBufferSize := c.bufferMessages
        pushBufferSize := c.bufferPush
        subChanCap := c.bufferMessages
        bindingsChanCap := c.bufferMessages
        userPushChCap := c.bufferPush
        userKickChCap := c.bufferMessages
        reqTimeout := c.requestTimeout }

/-- `NewNatsRPCServer` (src/cluster/nats_rpc_server.go lines 77-102):
returns the configured server, or no server at all when `configure`
fails. -/
def newNatsRPCServer (c : NatsRPCServerConfig) : Except Err RPCServerConf :=
  configure c

/-- `GetPublishTopic` with `PublishServiceName = "publish"`
(src/cluster/nats_rpc_server.go lines 156-160). -/
def getPublishTopic (topic : String) : String :=
  "pitaya." ++ "publish" ++ "." ++ topic

/-- The publish-subscription registry of a `NatsRPCServer`: whether the
broker connection exists yet, the live subscription map `publishSubs`
(by topic), the pre-connect map `preparePubSubTopics` (topic, group), and
the history of broker subscribe calls actually issued for publish topics. -/
structure PubState where
  connected : Bool
  publishSubs : List String
  prepare : List (String × String)
  brokerSubs : List String
  deriving DecidableEq

/-- The registry as built by `NewNatsRPCServer`: empty maps, no
connection. -/
def pubInit : PubState :=
  { connected := false, publishSubs := [], prepare := [], brokerSubs := [] }

/-- `NatsRPCServer.Subscribe` (src/cluster/nats_rpc_server.go lines
472-506): a topic already live or already pending is a warning-only no-op
returning nil; before the connection exists the topic is queued in the
pre-connect map; afterwards a broker subscription is issued directly. -/
def subscribePub (st : PubState) (topic group : String) : PubState × Option Err :=
  let tp := getPublishTopic topic
  if tp ∈ st.publishSubs then (st, none)
  else if tp ∈ st.prepare.map Prod.fst then (st, none)
  else if st.connected = false then
    ({ st with prepare := st.prepare ++ [(tp, group)] }, none)
  else
    ({ st with publishSubs := st.publishSubs ++ [tp], brokerSubs := st.brokerSubs ++ [tp] },
      none)

/-- The publish part of `NatsRPCServer.Init` (src/cluster/nats_rpc_server.go
lines 397-409): after the broker connection is established, every entry of
the pre-connect map is subscribed on the broker and recorded in
`publishSubs`; the pre-connect map itself is not cleared. -/
def initPub (st : PubState) : PubState :=
  { st with
    connected := true
    publishSubs := st.publishSubs ++ st.prepare.map Prod.fst
    brokerSubs := st.brokerSubs ++ st.prepare.map Prod.fst }

/-- A sequence of `Subscribe` calls applied in order. -/
def applySubs : PubState → List (String × String) → PubState
  | st, [] => st
  | st, c :: rest => applySubs (subscribePub st c.1 c.2).1 rest

/-- The registry over the server lifecycle: some `Subscribe` calls before
`Init`, the single `Init`, then further `Subscribe` calls. -/
def lifecycleState (pres posts : List (String × String)) : PubState :=
  applySubs (initPub (applySubs pubInit pres)) posts

/-- One drop observation of the `subCh` loop: the dropped count read from
the own unicast subscription, from each broadcast subscription, and from
each publish subscription. -/
structure DropObs where
  own : Int
  broadcasts : List Int
  publishes : List Int

/-- The summation of `handleMessages` (src/cluster/nats_rpc_server.go
lines 228-246): start from the own subscription's count and add every
broadcast and publish subscription's count. -/
def droppedSum (o : DropObs) : Int :=
  o.publishes.foldl (fun acc d => acc + d) (o.broadcasts.foldl (fun acc d => acc + d) o.own)

/-- The counter update of one `subCh` iteration
(src/cluster/nats_rpc_server.go lines 247-250): the stored counter is
replaced by the fresh sum only when that sum exceeds it. -/
def droppedIter (stored : Int) (o : DropObs) : Int :=
  if stored < droppedSum o then droppedSum o else stored

/-- The stored counter after a run of `subCh` iterations. -/
def droppedRun (stored : Int) (l : List DropObs) : Int :=
  l.foldl droppedIter stored

/-- Claim C10: the dropped-message counter of `handleMessages` is
monotonically non-decreasing: each `subCh` iteration sums the dropped
counts of the own unicast subscription, every broadcast subscription and
every publish subscription, updates the stored counter only when the sum
exceeds its previous value, and never decreases it; hence over any run the
counter never decreases. -/
theorem dropped_counter_monotone :
    (∀ stored o, stored ≤ droppedIter stored o ∧
      (droppedIter stored o = stored ∨
        (droppedIter stored o = droppedSum o ∧ stored < droppedSum o))) ∧
    (∀ stored l, stored ≤ droppedRun stored l) := by
  have hstep : ∀ stored o, stored ≤ droppedIter stored o ∧
      (droppedIter stored o = stored ∨
        (droppedIter stored o = droppedSum o ∧ stored < droppedSum o)) := by
    intro stored o
    unfold droppedIter
    by_cases h : stored < droppedSum o
    · exact ⟨by simp [h, le_of_lt h], by simp [h]⟩
    · simp [h]
  refine ⟨hstep, ?_⟩
  intro stored l
  induction l generalizing stored with
  | nil => simp [droppedRun]
  | cons o rest ih =>
    have h1 := (hstep stored o).1
    have h2 := ih (droppedIter stored o)
    have h3 : droppedRun stored (o :: rest) = droppedRun (droppedIter stored o) rest := rfl
    rw [h3]
    exact le_trans h1 h2

/-- A config whose connect string is empty and whose messages buffer size
is zero at the same time. -/
def cfgBadConnect : NatsRPCServerConfig :=
  { services := 0, connect := "", connectionTimeout := 0, maxReconnectionRetries := 0,
    bufferMessages := 0, bufferPush := 1, requestTimeout := 0 }

/-- Claim C7 counterexample: the claim quantifies over every config, but on
a config whose connect string is empty and whose messages buffer size is
zero, construction yields `ErrNoNatsConnectionString`, not
`ErrNatsMessagesBufferSizeZero`: the three checks are ordered, not
independent. -/
theorem configure_messages_zero_masked :
    newNatsRPCServer cfgBadConnect = Except.error Err.noNatsConnectionString ∧
    cfgBadConnect.bufferMessages = 0 ∧
    Err.noNatsConnectionString ≠ Err.natsMessagesBufferSizeZero :=
  ⟨rfl, rfl, by decide⟩

/-- Claim C7 (amended): construction fails fast with the checks applied in
order: an empty connect string yields `ErrNoNatsConnectionString`; with a
nonempty connect string, `buffer.messages = 0` yields
`ErrNatsMessagesBufferSizeZero`; with a nonempty connect string and nonzero
`buffer.messages`, `buffer.push = 0` yields `ErrNatsPushBufferSizeZero`;
in each case no server instance is returned. -/
theorem configure_failfast (c : NatsRPCServerConfig) :
    (c.connect = "" → newNatsRPCServer c = Except.error Err.noNatsConnectionString) ∧
    (c.connect ≠ "" → c.bufferMessages = 0 →
      newNatsRPCServer c = Except.error Err.natsMessagesBufferSizeZero) ∧
    (c.connect ≠ "" → c.bufferMessages ≠ 0 → c.bufferPush = 0 →
      newNatsRPCServer c = Except.error Err.natsPushBufferSizeZero) := by
  unfold newNatsRPCServer configure
  refine ⟨?_, ?_, ?_⟩
  · intro h; simp [h]
  · intro h h2; simp [h, h2]
  · intro h h2 h3; simp [h, h2, h3]

/-- Config with nonempty connect and zero messages buffer. -/
def cfgMsgsZero : NatsRPCServerConfig :=
  { services := 0, connect := "nats", connectionTimeout := 0, maxReconnectionRetries := 0,
    bufferMessages := 0, bufferPush := 1, requestTimeout := 0 }

/-- Config with nonempty connect, nonzero messages buffer and zero push
buffer. -/
def cfgPushZero : NatsRPCServerConfig :=
  { services := 0, connect := "nats", connectionTimeout := 0, maxReconnectionRetries := 0,
    bufferMessages := 8, bufferPush := 0, requestTimeout := 0 }

/-- Witness for the amended C7 theorem at three concrete configs. -/
theorem configure_failfast_witness :
    (cfgBadConnect.connect = "" ∧
      newNatsRPCServer cfgBadConnect = Except.error Err.noNatsConnectionString) ∧
    (cfgMsgsZero.connect ≠ "" ∧ cfgMsgsZero.bufferMessages = 0 ∧
      newNatsRPCServer cfgMsgsZero = Except.error Err.natsMessagesBufferSizeZero) ∧
    (cfgPushZero.connect ≠ "" ∧ cfgPushZero.bufferMessages ≠ 0 ∧ cfgPushZero.bufferPush = 0 ∧
      newNatsRPCServer cfgPushZero = Except.error Err.natsPushBufferSizeZero) :=
  ⟨⟨rfl, (configure_failfast cfgBadConnect).1 rfl⟩,
    ⟨by decide, rfl, (configure_failfast cfgMsgsZero).2.1 (by decide) rfl⟩,
    ⟨by decide, by decide, rfl,
      (configure_failfast cfgPushZero).2.2 (by decide) (by decide) rfl⟩⟩

/-- Claim C9: `Sys.Kick` always produces a KickAnswer; `kicked` is true
exactly when a session for the uid exists and the local kick succeeds;
with no session it answers `kicked = false` with `ErrSessionNotFound`, and
on a failing local kick it answers `kicked = false` with that error. -/
theorem kick_handler_answer (env : KickEnv) (pool : List SessionSt) (msg : KickMsg) :
    ((sysKick env pool msg).1.kicked = true ↔
      (getByUID pool msg.userId).isSome = true ∧ env.kick = none) ∧
    (getByUID pool msg.userId = none →
      sysKick env pool msg = ({ kicked := false }, some Err.sessionNotFound)) ∧
    (∀ e, (getByUID pool msg.userId).isSome = true → env.kick = some e →
      sysKick env pool msg = ({ kicked := false }, some e)) := by
  unfold sysKick
  cases hg : getByUID pool msg.userId with
  | none => simp [hg]
  | some sess =>
    cases hk : env.kick with
    | none => simp [hg, hk]
    | some e => simp [hg, hk]

/-- A session bound to uid u1, used by the C9 witness. -/
def sessC9 : SessionSt :=
  { id := 1, uid := "u1", frontendId := "", frontendSessionId := 0, dataEncoded := "" }

/-- Witness for the C9 theorem: the missing-session case on an empty pool
and the failed-kick case on a pool holding u1. -/
theorem kick_handler_answer_witness :
    (getByUID [] "u1" = none ∧
      sysKick { kick := none } [] { userId := "u1", metadata := [] } =
        ({ kicked := false }, some Err.sessionNotFound)) ∧
    ((getByUID [sessC9] "u1").isSome = true ∧
      sysKick { kick := some (Err.external 3) } [sessC9] { userId := "u1", metadata := [] } =
        ({ kicked := false }, some (Err.external 3))) :=
  ⟨⟨rfl, (kick_handler_answer { kick := none } [] { userId := "u1", metadata := [] }).2.1 rfl⟩,
    ⟨rfl, (kick_handler_answer { kick := some (Err.external 3) } [sessC9]
      { userId := "u1", metadata := [] }).2.2 (Err.external 3) rfl rfl⟩⟩

/-- The local backend server in the C3 scenario. -/
def serverC3 : Server := { id := "b1", type := "game", frontend := false }

/-- Claim C3 (code bug evidence): with no session for the uid in the pool
and no session in the request context, `Sys.BindBackendSession` evaluates
`sess.UID()` on a nil session (the right conjunct of
`sess == nil && sess.UID() != msg.Uid`) and panics instead of returning
`ErrSessionNotFound`; the error return guarded by that condition is
unreachable. -/
theorem bindBackendSession_nil_deref :
    sysBindBackendSession serverC3 { bindBackend := none } [] none
      { uid := "u1", btype := "game", bid := "b1", metadata := [] } = GoOut.nilPanic ∧
    (GoOut.nilPanic : GoOut String) ≠ GoOut.err Err.sessionNotFound :=
  ⟨rfl, by decide⟩

/-- The frontend server of the C1 scenario. -/
def serverC1 : Server := { id := "f1", type := "front", frontend := true }

/-- The session being bound in the C1 scenario, with snapshot data D0. -/
def sessC1 : SessionSt :=
  { id := 1, uid := "u1", frontendId := "", frontendSessionId := 0, dataEncoded := "D0" }

/-- The C1 run: every step succeeds except `BroadcastSessionBind`. -/
def envC1 : BindEnv :=
  { obtain := .ok "D1", flush := none, broadcast := some (Err.external 7), fork := none,
    notify := fun _ => none, types := ["front", "back"] }

/-- Claim C1 (code bug evidence): in a frontend session bind where only the
step-5 `BroadcastSessionBind` fails, the callback returns no error and the
session keeps the cluster-obtained data D1 instead of being restored to the
snapshot D0: the broadcast error is overwritten by the next `route.Decode`
assignment before it is checked. -/
theorem sessionBind_broadcast_error_swallowed :
    (sysOnSessionBind serverC1 envC1 sessC1 []).result = none ∧
    (sysOnSessionBind serverC1 envC1 sessC1 []).sess.dataEncoded = "D1" ∧
    envC1.broadcast = some (Err.external 7) ∧
    sessC1.dataEncoded = "D0" ∧ ("D1" : String) ≠ "D0" :=
  ⟨rfl, rfl, rfl, rfl, by decide⟩

/-- The local backend server of the C2 scenario. -/
def serverC2 : Server := { id := "b1", type := "game", frontend := false }

/-- The session being kicked in the C2 scenario. -/
def sessC2 : SessionSt :=
  { id := 7, uid := "u1", frontendId := "", frontendSessionId := 0, dataEncoded := "d" }

/-- Claim C2 (code bug evidence): `OnKickBackend` targeting the local
server removes the session from the pool; on a rebind it stops with no
write and no notification; otherwise it flushes and then sends exactly ONE
Notify with an empty target on the session-kicked-backend route — not one
Notify per server type known to discovery (the callback never consults
discovery at all), although its own comment announces notifying all
servers. -/
theorem kickBackend_single_notify :
    sysOnKickBackend serverC2 { flush := none, notify := none } [sessC2] sessC2 "game" "b1" []
        CloseReason.normal =
      { result := none, pool := [],
        trace := [Sent.flush "u1",
          Sent.notifyResolved sessionKickedBackendRoute
            (Payload.bindBackend
              { uid := "u1", btype := "game", bid := "b1", metadata := [] })] } ∧
    sysOnKickBackend serverC2 { flush := none, notify := none } [sessC2] sessC2 "game" "b1" []
        CloseReason.rebind =
      { result := none, pool := [], trace := [] } :=
  ⟨rfl, rfl⟩

/-- Claim C5: an `OnBindBackend` invocation targeting the local server
whose uid already has a session in the pool returns
`ErrSessionAlreadyBound` with no local store, no cluster write and no
fan-out: the pool is unchanged and the outbound trace is empty. -/
theorem bindBackend_already_bound (server : Server) (env : BindBackendEnv)
    (pool : List SessionSt) (s : SessionSt) (serverType : String)
    (callback : List (String × String)) (sess : SessionSt)
    (h : getByUID pool s.uid = some sess) :
    sysOnBindBackend server env pool s serverType server.id callback =
      { result := some Err.sessionAlreadyBound, pool := pool, trace := [] } := by
  unfold sysOnBindBackend
  simp [h]

/-- The local backend server of the C5 witness. -/
def serverC5 : Server := { id := "b1", type := "game", frontend := false }

/-- Environment of the C5 witness (its outcomes are never consulted). -/
def envC5 : BindBackendEnv :=
  { store := none, flush := none, fork := none, notifyType := fun _ => none,
    notifyRemote := none, types := ["game", "front"] }

/-- The session already bound for uid u9 in the C5 witness. -/
def sessC5 : SessionSt :=
  { id := 3, uid := "u9", frontendId := "", frontendSessionId := 0, dataEncoded := "" }

/-- Witness for the C5 theorem on a pool that already holds u9. -/
theorem bindBackend_already_bound_witness :
    getByUID [sessC5] sessC5.uid = some sessC5 ∧
    sysOnBindBackend serverC5 envC5 [sessC5] sessC5 "game" serverC5.id [] =
      { result := some Err.sessionAlreadyBound, pool := [sessC5], trace := [] } :=
  ⟨rfl, bindBackend_already_bound serverC5 envC5 [sessC5] sessC5 "game" [] sessC5 rfl⟩

/-- Claim C6: an `OnBindBackend` invocation whose target server id differs
from the local id sends exactly one Notify carrying the BindBackendMsg to
that target on the session-bind-backend route, returns that Notify's
result, and leaves the local pool unmutated. -/
theorem bindBackend_remote_forward (server : Server) (env : BindBackendEnv)
    (pool : List SessionSt) (s : SessionSt) (serverType serverId : String)
    (callback : List (String × String)) (h : serverId ≠ server.id) :
    sysOnBindBackend server env pool s serverType serverId callback =
      { result := env.notifyRemote, pool := pool,
        trace := [Sent.notifyTo serverId sessionBindBackendRoute
          (Payload.bindBackend
            { uid := s.uid, btype := serverType, bid := server.id, metadata := callback })] } := by
  unfold sysOnBindBackend
  have h2 : ¬(server.id = serverId) := fun hh => h hh.symm
  simp [h2, decodeRoute]

/-- Environment of the C6 witness: the forwarded Notify succeeds. -/
def envC6 : BindBackendEnv :=
  { store := none, flush := none, fork := none, notifyType := fun _ => none,
    notifyRemote := none, types := [] }

/-- The frontend issuing the remote backend bind in the C6 witness. -/
def serverC6 : Server := { id := "f1", type := "front", frontend := true }

/-- The session of the C6 witness. -/
def sessC6 : SessionSt :=
  { id := 4, uid := "u3", frontendId := "f1", frontendSessionId := 4, dataEncoded := "" }

/-- Witness for the C6 theorem: binding uid u3 to backend b2 from f1. -/
theorem bindBackend_remote_forward_witness :
    ("b2" : String) ≠ serverC6.id ∧
    sysOnBindBackend serverC6 envC6 [sessC6] sessC6 "game" "b2" [] =
      { result := none, pool := [sessC6],
        trace := [Sent.notifyTo "b2" sessionBindBackendRoute
          (Payload.bindBackend
            { uid := "u3", btype := "game", bid := "f1", metadata := [] })] } :=
  ⟨by decide, bindBackend_remote_forward serverC6 envC6 [sessC6] sessC6 "game" "b2" []
    (by decide)⟩

/-- When every per-type Notify succeeds, the NotifyAll loop sends exactly
one message per listed type and reports success. -/
theorem notifyEachType_all_ok (ts : List String) (f : String → Option Err) (r : String)
    (p : Payload) (h : allNone f ts = true) :
    notifyEachType ts f r p =
      (none, ts.map (fun t => Sent.notifyResolved (t ++ "." ++ r) p)) := by
  induction ts with
  | nil => rfl
  | cons t rest ih =>
    have h0 : (f t).isNone = true ∧ allNone f rest = true := by
      simpa [allNone] using h
    have hf : f t = none := Option.isNone_iff_eq_none.mp h0.1
    simp [notifyEachType, hf, ih h0.2]

/-- Claim C4: on a frontend, a session close with reason Rebind sends no
messages at all; any other close sends exactly one KickMsg carrying the
session's uid and the callback metadata per distinct peer server type
(every discovered type except the frontend's own), via NotifyAll on the
session-closed route; in both cases the frontend's binding cache entry is
untouched. -/
theorem sessionClose_fanout (server : Server) (env : CloseEnv) (s : SessionSt)
    (callback : List (String × String)) (cache : List (String × String))
    (hf : server.frontend = true) :
    (sysOnSessionClose server env s callback CloseReason.rebind cache = ([], cache)) ∧
    (∀ reason, reason ≠ CloseReason.rebind →
      allNone env.notify (env.types.filter (fun t => t ≠ server.type)) = true →
      sysOnSessionClose server env s callback reason cache =
        ((env.types.filter (fun t => t ≠ server.type)).map
          (fun t => Sent.notifyResolved (t ++ "." ++ sessionClosedRoute)
            (Payload.kick { userId := s.uid, metadata := callback })), cache)) := by
  constructor
  · unfold sysOnSessionClose
    simp [hf]
  · intro reason hr hok
    unfold sysOnSessionClose
    have hok2 : allNone env.notify
        (List.filter (fun t => !decide (t = server.type)) env.types) = true := by
      simpa using hok
    simp [hf, hr, decodeRoute, notifyAll, notifyEachType_all_ok _ _ _ _ hok2]

/-- The frontend of the C4 witness. -/
def serverC4 : Server := { id := "f1", type := "front", frontend := true }

/-- Environment of the C4 witness: peers of types front and game, every
Notify succeeding. -/
def envC4 : CloseEnv := { notify := fun _ => none, types := ["front", "game"] }

/-- The closing session of the C4 witness. -/
def sessC4 : SessionSt :=
  { id := 2, uid := "u2", frontendId := "f1", frontendSessionId := 2, dataEncoded := "" }

/-- Witness for the C4 theorem: a rebind close sends nothing; a normal
close sends exactly one KickMsg to the one peer type game, and the cache
entry survives both. -/
theorem sessionClose_fanout_witness :
    serverC4.frontend = true ∧
    CloseReason.normal ≠ CloseReason.rebind ∧
    allNone envC4.notify ["game"] = true ∧
    sysOnSessionClose serverC4 envC4 sessC4 [("why", "admin")] CloseReason.rebind
      [("u2", "f1")] = ([], [("u2", "f1")]) ∧
    sysOnSessionClose serverC4 envC4 sessC4 [("why", "admin")] CloseReason.normal
      [("u2", "f1")] =
      ([Sent.notifyResolved ("game" ++ "." ++ sessionClosedRoute)
          (Payload.kick { userId := "u2", metadata := [("why", "admin")] })],
        [("u2", "f1")]) :=
  ⟨rfl, by decide, rfl,
    (sessionClose_fanout serverC4 envC4 sessC4 [("why", "admin")] [("u2", "f1")] rfl).1,
    (sessionClose_fanout serverC4 envC4 sessC4 [("why", "admin")] [("u2", "f1")] rfl).2
      CloseReason.normal (by decide) rfl⟩

/-- Invariant of the publish-subscription registry: the broker subscribe
history matches the live map, the live map and the pre-connect keys are
duplicate-free, the live map is empty before connect, and after connect
every pre-connect key is already live. -/
def PubInv (st : PubState) : Prop :=
  st.brokerSubs = st.publishSubs ∧
  st.publishSubs.Nodup ∧
  (st.prepare.map Prod.fst).Nodup ∧
  (st.connected = false → st.publishSubs = []) ∧
  (∀ k, k ∈ st.prepare.map Prod.fst → st.connected = true → k ∈ st.publishSubs)

/-- The freshly constructed registry satisfies the invariant. -/
theorem pubInv_init : PubInv pubInit := by
  refine ⟨rfl, List.nodup_nil, List.nodup_nil, fun _ => rfl, ?_⟩
  intro k hk _
  simp [pubInit] at hk

/-- `Subscribe` never changes the connection flag. -/
theorem subscribePub_connected (st : PubState) (t g : String) :
    (subscribePub st t g).1.connected = st.connected := by
  unfold subscribePub
  by_cases h1 : getPublishTopic t ∈ st.publishSubs
  · simp [h1]
  · by_cases h2 : getPublishTopic t ∈ st.prepare.map Prod.fst
    · simp [h1, h2]
    · by_cases h3 : st.connected = false
      · simp [h1, h2, h3]
      · simp [h1, h2, h3]

/-- A `Subscribe` of a topic already in the live map is a no-op returning
nil. -/
theorem subscribePub_mem_live (st : PubState) (t g : String)
    (h : getPublishTopic t ∈ st.publishSubs) : subscribePub st t g = (st, none) := by
  unfold subscribePub
  simp [h]

/-- A `Subscribe` of a topic already in the pre-connect map is a no-op
returning nil. -/
theorem subscribePub_mem_prepare (st : PubState) (t g : String)
    (h : getPublishTopic t ∈ st.prepare.map Prod.fst) : subscribePub st t g = (st, none) := by
  unfold subscribePub
  by_cases h1 : getPublishTopic t ∈ st.publishSubs
  · simp [h1]
  · simp [h1, h]

/-- After any `Subscribe` of a topic, that topic is registered: it is in
the live map or in the pre-connect map of the resulting state. -/
theorem subscribePub_registered (st : PubState) (t g : String) :
    getPublishTopic t ∈ (subscribePub st t g).1.publishSubs ∨
    getPublishTopic t ∈ (subscribePub st t g).1.prepare.map Prod.fst := by
  unfold subscribePub
  by_cases h1 : getPublishTopic t ∈ st.publishSubs
  · simp [h1]
  · by_cases h2 : getPublishTopic t ∈ st.prepare.map Prod.fst
    · simp [h1, h2]
    · by_cases h3 : st.connected = false
      · simp [h1, h2, h3]
      · simp [h1, h2, h3]

/-- `Subscribe` preserves the registry invariant. -/
theorem subscribePub_inv (st : PubState) (t g : String) (h : PubInv st) :
    PubInv (subscribePub st t g).1 := by
  obtain ⟨hb, hn, hp, hc, hk⟩ := h
  by_cases h1 : getPublishTopic t ∈ st.publishSubs
  · rw [subscribePub_mem_live st t g h1]
    exact ⟨hb, hn, hp, hc, hk⟩
  · by_cases h2 : getPublishTopic t ∈ st.prepare.map Prod.fst
    · rw [subscribePub_mem_prepare st t g h2]
      exact ⟨hb, hn, hp, hc, hk⟩
    · by_cases h3 : st.connected = false
      · have e1 : (subscribePub st t g).1 =
            { st with prepare := st.prepare ++ [(getPublishTopic t, g)] } := by
          unfold subscribePub
          simp [h1, h2, h3]
        rw [e1]
        refine ⟨hb, hn, ?_, fun _ => hc h3, ?_⟩
        · show (List.map Prod.fst (st.prepare ++ [(getPublishTopic t, g)])).Nodup
          simp [List.nodup_append, hp, h2]
        · intro k hk2 hcon
          have hcon2 : st.connected = true := hcon
          rw [h3] at hcon2
          cases hcon2
      · have h3b : st.connected = true := by
          cases hcv : st.connected
          · exact absurd hcv h3
          · rfl
        have e1 : (subscribePub st t g).1 =
            { st with publishSubs := st.publishSubs ++ [getPublishTopic t],
                      brokerSubs := st.brokerSubs ++ [getPublishTopic t] } := by
          unfold subscribePub
          simp [h1, h2, h3]
        rw [e1]
        refine ⟨?_, ?_, hp, ?_, ?_⟩
        · show st.brokerSubs ++ [getPublishTopic t] = st.publishSubs ++ [getPublishTopic t]
          rw [hb]
        · show (st.publishSubs ++ [getPublishTopic t]).Nodup
          simp [List.nodup_append, hn, h1]
        · intro hcf
          have hcf2 : st.connected = false := hcf
          exact absurd hcf2 h3
        · intro k hk2 hcon
          have hk3 : k ∈ List.map Prod.fst st.prepare := hk2
          exact List.mem_append_left _ (hk k hk3 h3b)

/-- Materializing the pre-connect map at `Init` preserves the invariant
when starting from a not-yet-connected registry. -/
theorem initPub_inv (st : PubState) (h : PubInv st) (hc0 : st.connected = false) :
    PubInv (initPub st) := by
  obtain ⟨hb, hn, hp, hc, _⟩ := h
  have hemp : st.publishSubs = [] := hc hc0
  unfold initPub
  refine ⟨by rw [hb], ?_, hp, ?_, ?_⟩
  · show (st.publishSubs ++ List.map Prod.fst st.prepare).Nodup
    rw [hemp]
    simpa using hp
  · intro hfalse
    exact absurd hfalse (by simp)
  · intro k hkm _
    have hkm2 : k ∈ List.map Prod.fst st.prepare := hkm
    show k ∈ st.publishSubs ++ List.map Prod.fst st.prepare
    rw [hemp]
    simpa using hkm2

/-- A sequence of `Subscribe` calls preserves the invariant. -/
theorem applySubs_inv (calls : List (String × String)) (st : PubState) (h : PubInv st) :
    PubInv (applySubs st calls) := by
  induction calls generalizing st with
  | nil => exact h
  | cons c rest ih => exact ih _ (subscribePub_inv st c.1 c.2 h)

/-- A sequence of `Subscribe` calls keeps a disconnected registry
disconnected. -/
theorem applySubs_connected (calls : List (String × String)) (st : PubState)
    (h : st.connected = false) : (applySubs st calls).connected = false := by
  induction calls generalizing st with
  | nil => exact h
  | cons c rest ih =>
    refine ih _ ?_
    rw [subscribePub_connected]
    exact h

/-- Claim C8: publish-topic registration is idempotent — immediately after
any `Subscribe` of a topic (pending or live, from any starting state), a
second `Subscribe` of the same topic is a no-op returning nil — and over
any server lifecycle (registrations before Init, the single Init, then
registrations after) each publish topic has at most one broker
subscription. -/
theorem subscribe_idempotent_unique :
    (∀ st t g g',
      subscribePub (subscribePub st t g).1 t g' = ((subscribePub st t g).1, none)) ∧
    (∀ pres posts tp, ((lifecycleState pres posts).brokerSubs.count tp) ≤ 1) := by
  constructor
  · intro st t g g'
    rcases subscribePub_registered st t g with hm | hm
    · exact subscribePub_mem_live _ t g' hm
    · exact subscribePub_mem_prepare _ t g' hm
  · intro pres posts tp
    have hinv : PubInv (lifecycleState pres posts) := by
      unfold lifecycleState
      exact applySubs_inv _ _
        (initPub_inv _ (applySubs_inv _ _ pubInv_init) (applySubs_connected _ _ rfl))
    obtain ⟨hb, hn, _, _, _⟩ := hinv
    rw [hb]
    exact List.nodup_iff_count_le_one.mp hn tp

end PitayaModel
